import Mathlib

/-!
Shallow embedding of the post-feed aggregation, feed-cache and image-resolver
core of the photo-sharing service (`src/app.py`), together with theorems
settling the specification claims about it.

Conventions of the embedding:
* Database rows become Lean structures; `created_at` timestamps are `Nat`.
* The relational store is a `Database` value (lists of rows); SQL queries
  become pure list computations.  SQL sort orders whose tie-breaking is
  unspecified are modelled with a stable sort (`List.insertionSort`), i.e.
  ties are broken by insertion order, matching the spec's stated tie-break.
* Python dict rows acquiring new keys (`post["comment_count"] = ...`) are
  modelled by `Option`-typed fields that start out `none` and are set to
  `some _` by hydration; `make_posts` returns the pair
  (input rows as mutated by the loop, accepted output posts).
* Fallible external services (memcached, the blob store, the DB update) are
  modelled with `Except`/`Bool` success flags; a raised exception is an
  `Except.error` (or a branch taken on a `false` flag).
-/

namespace Isuconp

/-- A row of the `users` table (`id`, `account_name`, `passhash`, `authority`,
`del_flg`, `created_at`). -/
structure User where
  id : Nat
  account_name : String
  passhash : String
  authority : Nat
  del_flg : Bool
  created_at : Nat
deriving DecidableEq, Repr, Inhabited

/-- A row of the `comments` table. -/
structure CommentRow where
  id : Nat
  post_id : Nat
  user_id : Nat
  comment : String
  created_at : Nat
deriving DecidableEq, Repr, Inhabited

/-- A comment joined with its author, as built by the third batch query of
`make_posts` (`src/app.py` lines 199-213). -/
structure CommentView where
  id : Nat
  post_id : Nat
  user_id : Nat
  comment : String
  created_at : Nat
  user : User
deriving DecidableEq, Repr, Inhabited

/-- A post row as it flows through `make_posts`.  The base fields come from
the `posts` table SELECT; the three `Option` fields model the dict keys that
`make_posts` adds in place (`none` = key absent).  The `user` field is
`some opt` once the key has been assigned, where `opt` is the possibly-failed
author lookup `users_data.get(post["user_id"])`. -/
structure PostRow where
  id : Nat
  user_id : Nat
  body : String
  mime : String
  created_at : Nat
  comment_count : Option Nat := none
  comments : Option (List CommentView) := none
  user : Option (Option User) := none
deriving DecidableEq, Repr, Inhabited

/-- The relational store: the three tables consulted by the aggregator. -/
structure Database where
  users : List User
  posts : List PostRow
  comments : List CommentRow
deriving DecidableEq, Repr, Inhabited

/-- `POSTS_PER_PAGE` (`src/app.py` line 19). -/
def POSTS_PER_PAGE : Nat := 20

/-- `limit_condition = 3 if not all_comments else 999999`
(`src/app.py` line 174). -/
def comment_limit (all_comments : Bool) : Nat :=
  if all_comments then 999999 else 3

/-- All comments of one post, in table (insertion) order:
`WHERE c1.post_id IN (...)` restricted to one post id. -/
def comments_of (db : Database) (pid : Nat) : List CommentRow :=
  db.comments.filter (fun c => c.post_id == pid)

/-- Ranking relation of the window function
`ROW_NUMBER() OVER (PARTITION BY post_id ORDER BY created_at DESC)`:
`a` ranks before `b` when `a.created_at ≥ b.created_at`. -/
def comment_desc (a b : CommentRow) : Prop := b.created_at ≤ a.created_at

instance : DecidableRel comment_desc := fun a b =>
  inferInstanceAs (Decidable (b.created_at ≤ a.created_at))

instance : IsTotal CommentRow comment_desc :=
  ⟨fun a b => Nat.le_total b.created_at a.created_at⟩

instance : IsTrans CommentRow comment_desc :=
  ⟨fun _ _ _ hab hbc => Nat.le_trans hbc hab⟩

/-- Final per-post ordering `ORDER BY c.created_at ASC` on joined comments. -/
def view_asc (a b : CommentView) : Prop := a.created_at ≤ b.created_at

instance : DecidableRel view_asc := fun a b =>
  inferInstanceAs (Decidable (a.created_at ≤ b.created_at))

instance : IsTotal CommentView view_asc :=
  ⟨fun a b => Nat.le_total a.created_at b.created_at⟩

instance : IsTrans CommentView view_asc :=
  ⟨fun _ _ _ hab hbc => Nat.le_trans hab hbc⟩

/-- One post's comments ranked by `created_at` descending (stable: ties keep
insertion order, the spec's stated tie-break). -/
def ranked_desc (db : Database) (pid : Nat) : List CommentRow :=
  List.insertionSort comment_desc (comments_of db pid)

/-- The inner join `JOIN users u ON c.user_id = u.id`: attaches the author,
dropping the comment when no user row matches.  Note: no `del_flg` filter. -/
def join_author (db : Database) (c : CommentRow) : Option CommentView :=
  match db.users.find? (fun u => u.id == c.user_id) with
  | some u =>
      some { id := c.id, post_id := c.post_id, user_id := c.user_id,
             comment := c.comment, created_at := c.created_at, user := u }
  | none => none

/-- The comment list attached to one post by query 3 of `make_posts`
(`src/app.py` lines 175-214): rank descending, keep `rn ≤ limit`, join
authors, re-sort ascending by `created_at`. -/
def post_comments (db : Database) (lim : Nat) (pid : Nat) : List CommentView :=
  List.insertionSort view_asc
    (((ranked_desc db pid).take lim).filterMap (join_author db))

/-- Query 2 of `make_posts` (`src/app.py` lines 165-171):
`SELECT post_id, COUNT(*) FROM comments ... GROUP BY post_id`, with the
`dict.get(post_id, 0)` default.  Restricting the query to the batch's post
ids is immaterial because the count is only ever read at those ids. -/
def comment_count_of (db : Database) (pid : Nat) : Nat :=
  (comments_of db pid).length

/-- Query 1 of `make_posts` (`src/app.py` lines 157-162): the author lookup
dict, keyed by user id, populated from
`users WHERE id IN (SELECT DISTINCT user_id FROM posts WHERE id IN (ids))`. -/
def users_data_lookup (db : Database) (post_ids : List Nat) (uid : Nat) :
    Option User :=
  if ((db.posts.filter (fun p => post_ids.contains p.id)).map
        PostRow.user_id).contains uid then
    db.users.find? (fun u => u.id == uid)
  else none

/-- The in-place mutation of one row in the assembly loop
(`src/app.py` lines 217-227): sets the `comment_count`, `comments` and
`user` keys, leaving all pre-existing fields unchanged. -/
def hydrate_post (db : Database) (post_ids : List Nat) (lim : Nat)
    (post : PostRow) : PostRow :=
  { post with
    comment_count := some (comment_count_of db post.id)
    comments := some (post_comments db lim post.id)
    user := some (users_data_lookup db post_ids post.user_id) }

/-- The acceptance test `if post["user"] and not post["user"]["del_flg"]`
(`src/app.py` line 230) on a hydrated row. -/
def row_visible (p : PostRow) : Bool :=
  match p.user with
  | some (some u) => !u.del_flg
  | _ => false

/-- The assembly loop of `make_posts` (`src/app.py` lines 217-235), carrying
the number of accepted posts.  Returns (rows as left by the loop — hydrated
up to the break point, untouched after it — , accepted posts).  The loop
breaks right after the `POSTS_PER_PAGE`-th accepted post. -/
def make_posts_go (db : Database) (post_ids : List Nat) (lim : Nat) :
    List PostRow → Nat → List PostRow × List PostRow
  | [], _ => ([], [])
  | post :: rest, accepted =>
    let p := hydrate_post db post_ids lim post
    if row_visible p then
      if POSTS_PER_PAGE ≤ accepted + 1 then
        (p :: rest, [p])
      else
        let r := make_posts_go db post_ids lim rest (accepted + 1)
        (p :: r.1, p :: r.2)
    else
      let r := make_posts_go db post_ids lim rest accepted
      (p :: r.1, r.2)

/-- `make_posts(results, all_comments)` (`src/app.py` lines 145-237).
Returns (the input rows as mutated in place, the returned posts list). -/
def make_posts (db : Database) (results : List PostRow)
    (all_comments : Bool) : List PostRow × List PostRow :=
  if results.isEmpty then (results, [])
  else
    make_posts_go db (results.map PostRow.id) (comment_limit all_comments)
      results 0

/-! ## Feed cache (`src/app.py` lines 85-95 and 620-630)

A raw memcached client operation either returns a value or raises; this is
modelled as an `Except Unit _`-valued service function.  `cache_get` and
`cache_set` are the wrappers with `try/except`; the deletes issued by
`post_comment` call the client directly, with no wrapper. -/

/-- `cache_get` (`src/app.py` lines 85-89): `memcache().get(key)` under
`try/except Exception: return None` — an error is returned as `none`,
exactly a miss. -/
def cache_get {α : Type} (svc : String → Except Unit (Option α))
    (key : String) : Option α :=
  match svc key with
  | Except.ok v => v
  | Except.error _ => none

/-- `cache_set` (`src/app.py` lines 91-95): `memcache().set(...)` under
`try/except Exception: pass` — both outcomes of the service call collapse
to a normal return. -/
def cache_set {α : Type} (svc : String → α → Nat → Except Unit Unit)
    (key : String) (value : α) (ttl : Nat) : Except Unit Unit :=
  match svc key value ttl with
  | Except.ok _ => Except.ok ()
  | Except.error _ => Except.ok ()

/-- The cache-invalidation block of `post_comment` (`src/app.py` lines
620-630): three raw `memcache().delete(...)` calls with no exception
handler, sequenced as in the handler; a raised exception short-circuits and
escapes to the request machinery (modelled by `Except` bind). -/
def post_comment_invalidation (deleteOp : String → Except Unit Unit)
    (post_id : Nat) (owner_account : Option String) : Except Unit Unit := do
  deleteOp "tl:top"
  deleteOp ("post:" ++ toString post_id)
  match owner_account with
  | some name => deleteOp ("user:" ++ name ++ ":page0")
  | none => pure ()

/-! ## Image resolver (`src/app.py` lines 535-597, 673-694) -/

/-- The polymorphic `imgdata` column: either a binary blob or a Python
string (which the code treats as a filename reference when short). -/
inductive ImgData where
  | bytes (data : List Nat)
  | str (s : String)
deriving DecidableEq, Repr, Inhabited

/-- The projection of a `posts` row read by `get_image`:
`SELECT mime, imgdata FROM posts WHERE id = %s`. -/
structure PostImageRow where
  id : Nat
  mime : String
  imgdata : ImgData
deriving DecidableEq, Repr, Inhabited

/-- State touched by the image resolver: the `posts` table (as seen through
`mime`/`imgdata`) and the blob-store directory (filename ↦ bytes). -/
structure ImageState where
  posts : List PostImageRow
  files : List (String × List Nat)
deriving DecidableEq, Repr, Inhabited

/-- `get_image_extension` (`src/app.py` lines 673-680). -/
def get_image_extension (mime_type : String) : String :=
  if mime_type == "image/jpeg" then ".jpg"
  else if mime_type == "image/png" then ".png"
  else if mime_type == "image/gif" then ".gif"
  else ""

/-- `generate_image_filename` (`src/app.py` lines 683-686):
`f"{post_id}{ext}"`. -/
def generate_image_filename (post_id : Nat) (mime_type : String) : String :=
  toString post_id ++ get_image_extension mime_type

/-- The extension/mime validation of `get_image`
(`src/app.py` lines 554-556). -/
def ext_matches (ext mime : String) : Bool :=
  (ext == "jpg" && mime == "image/jpeg") ||
  (ext == "png" && mime == "image/png") ||
  (ext == "gif" && mime == "image/gif")

/-- The representation dispatch `isinstance(imgdata, str) and
len(imgdata) < 100` (`src/app.py` line 560). -/
def is_filename_ref : ImgData → Bool
  | ImgData.str s => s.length < 100
  | ImgData.bytes _ => false

/-- The bytes the migration branch writes to the blob store
(`src/app.py` lines 583-587): a blob is written raw; a string is encoded
latin-1, which raises (hence `none`) on any code point ≥ 256. -/
def inline_payload : ImgData → Option (List Nat)
  | ImgData.bytes d => some d
  | ImgData.str s =>
      if s.data.all (fun c => c.toNat < 256) then
        some (s.data.map Char.toNat)
      else none

/-- Blob-store read / existence check, keyed by filename. -/
def find_file (s : ImageState) (name : String) : Option (List Nat) :=
  (s.files.find? (fun f => f.1 == name)).map Prod.snd

/-- Blob-store write: creates or replaces the file. -/
def write_file (s : ImageState) (name : String) (content : List Nat) :
    ImageState :=
  { s with files := (name, content) :: s.files.filter (fun f => f.1 != name) }

/-- `UPDATE posts SET imgdata = %s WHERE id = %s`
(`src/app.py` line 590). -/
def update_imgdata (s : ImageState) (id : Nat) (d : ImgData) : ImageState :=
  { s with posts := s.posts.map (fun p =>
      if p.id == id then { p with imgdata := d } else p) }

/-- Observable outcome of an image request. -/
inductive ImageOutcome where
  /-- `return ""` for a zero/empty id (an empty 200 response). -/
  | empty
  /-- `flask.abort(404)`. -/
  | notFound
  /-- `flask.send_file(path)`: bytes served from the blob store. -/
  | file (path : String) (content : List Nat) (mime : String)
  /-- `flask.Response(imgdata)`: the row's inline value served directly. -/
  | inline (data : ImgData) (mime : String)
  /-- An uncaught exception (e.g. `int(id)` failing). -/
  | error
deriving DecidableEq, Repr, Inhabited

/-- The legacy-inline branch of `get_image` (`src/app.py` lines 574-597):
write the bytes to the deterministic filename, update the row to reference
it, serve the file; on any failure (`writeOk`/`updateOk` false, or latin-1
encoding failure) fall back to `flask.Response(imgdata)`.  A write failure
leaves both stores untouched; an update failure after a successful write
leaves the blob file in place and the row unchanged. -/
def migrate_serve (s : ImageState) (id : Nat) (mime : String)
    (imgdata : ImgData) (writeOk updateOk : Bool) :
    ImageOutcome × ImageState :=
  let filename := generate_image_filename id mime
  match (if writeOk then inline_payload imgdata else none) with
  | none => (ImageOutcome.inline imgdata mime, s)
  | some content =>
    let s1 := write_file s filename content
    if updateOk then
      (ImageOutcome.file filename content mime,
        update_imgdata s1 id (ImgData.str filename))
    else (ImageOutcome.inline imgdata mime, s1)

/-- `get_image` (`src/app.py` lines 535-597) after the id has been parsed:
zero-id guard, row fetch, extension validation, then representation
dispatch between the filename-reference branch and on-demand migration. -/
def get_image (s : ImageState) (id : Nat) (ext : String)
    (writeOk updateOk : Bool) : ImageOutcome × ImageState :=
  if id == 0 then (ImageOutcome.empty, s)
  else
    match s.posts.find? (fun p => p.id == id) with
    | none => (ImageOutcome.notFound, s)
    | some post =>
      if ext_matches ext post.mime then
        match post.imgdata with
        | ImgData.str filename =>
          if filename.length < 100 then
            match find_file s filename with
            | none => (ImageOutcome.notFound, s)
            | some content =>
                (ImageOutcome.file filename content post.mime, s)
          else
            migrate_serve s id post.mime (ImgData.str filename)
              writeOk updateOk
        | ImgData.bytes d =>
            migrate_serve s id post.mime (ImgData.bytes d) writeOk updateOk
      else (ImageOutcome.notFound, s)

/-- Python `int(...)` on a route segment, modelled for nonnegative digit
strings (the shape the `/image/<id>.<ext>` route produces): the value when
the segment is all digits and nonempty, an exception (`none`) otherwise. -/
def parse_int (s : String) : Option Nat :=
  if s.data ≠ [] ∧ s.data.all Char.isDigit then
    some (s.data.foldl (fun n c => n * 10 + (c.toNat - 48)) 0)
  else none

/-- The raw route handler entry (`src/app.py` lines 536-541): the `id` path
segment arrives as a string; `if not id: return ""` fires on the empty
string, then `int(id)` parses (an unparsable segment raises), then
`if id == 0: return ""`. -/
def get_image_route (s : ImageState) (idStr ext : String)
    (writeOk updateOk : Bool) : ImageOutcome × ImageState :=
  if idStr == "" then (ImageOutcome.empty, s)
  else
    match parse_int idStr with
    | none => (ImageOutcome.error, s)
    | some n => get_image s n ext writeOk updateOk

/-! ## Referential integrity of comment authors

The comments batch query inner-joins `users`; the join never drops a
comment exactly when every comment's author exists. -/

/-- Every comment's `user_id` resolves to a row of `users` (the foreign-key
integrity the schema guarantees). -/
def comments_fk (db : Database) : Prop :=
  ∀ c ∈ db.comments, (db.users.find? (fun u => u.id == c.user_id)).isSome

instance (db : Database) : Decidable (comments_fk db) :=
  List.decidableBAll _ db.comments

/-! ## Concrete data for witnesses and counterexamples -/

/-- A live user. -/
def demo_alice : User :=
  { id := 1, account_name := "alice", passhash := "h1", authority := 0,
    del_flg := false, created_at := 0 }

/-- A soft-deleted user. -/
def demo_bob_deleted : User :=
  { id := 2, account_name := "bob", passhash := "h2", authority := 0,
    del_flg := true, created_at := 0 }

/-- A post row authored by the live user, as selected for a feed. -/
def demo_post10 : PostRow :=
  { id := 10, user_id := 1, body := "b", mime := "image/png",
    created_at := 100 }

/-- One post, one live author, no comments. -/
def demo_db_single : Database :=
  { users := [demo_alice], posts := [demo_post10], comments := [] }

/-- A comment on post 10 authored by the soft-deleted user. -/
def demo_comment_by_deleted : CommentRow :=
  { id := 500, post_id := 10, user_id := 2, comment := "hi",
    created_at := 50 }

/-- A live-authored post carrying a comment whose author is soft-deleted. -/
def demo_db_deleted_commenter : Database :=
  { users := [demo_alice, demo_bob_deleted], posts := [demo_post10],
    comments := [demo_comment_by_deleted] }

/-- Five comments on post 10 by the live user, distinct timestamps. -/
def demo_comment5 (i : Nat) : CommentRow :=
  { id := 100 + i, post_id := 10, user_id := 1, comment := "c",
    created_at := i }

/-- One post with five comments, all authors live. -/
def demo_db_five_comments : Database :=
  { users := [demo_alice], posts := [demo_post10],
    comments := (List.range 5).map demo_comment5 }

/-- The `i`-th of 21 live-authored post rows. -/
def demo_post_of (i : Nat) : PostRow :=
  { id := i, user_id := 1, body := "", mime := "image/png",
    created_at := i }

/-- 21 post rows — one more than a full page. -/
def demo_rows21 : List PostRow :=
  (List.range 21).map (fun i => demo_post_of (i + 1))

/-- A store holding 21 live-authored posts. -/
def demo_db_21posts : Database :=
  { users := [demo_alice], posts := demo_rows21, comments := [] }

/-- An image store with one already-migrated post (filename reference with
the blob present). -/
def demo_img_migrated : ImageState :=
  { posts := [{ id := 7, mime := "image/gif",
                imgdata := ImgData.str "7.gif" }],
    files := [("7.gif", [1, 2])] }

/-- An image store with one legacy inline post and an empty blob store. -/
def demo_img_inline : ImageState :=
  { posts := [{ id := 1, mime := "image/png",
                imgdata := ImgData.bytes [7, 8, 9] }],
    files := [] }

/-- An empty image store. -/
def demo_img_empty : ImageState := { posts := [], files := [] }

/-- An image store whose only post references a blob that is absent. -/
def demo_img_dangling : ImageState :=
  { posts := [{ id := 3, mime := "image/jpeg",
                imgdata := ImgData.str "3.jpg" }],
    files := [] }

/-! ## Helper lemmas about the aggregator -/

/-- Hydration only writes the three added keys: every base field of the row
is left unchanged, and all three keys are set. -/
theorem hydrate_post_fields (db : Database) (post_ids : List Nat) (lim : Nat)
    (r : PostRow) :
    (hydrate_post db post_ids lim r).id = r.id ∧
    (hydrate_post db post_ids lim r).user_id = r.user_id ∧
    (hydrate_post db post_ids lim r).body = r.body ∧
    (hydrate_post db post_ids lim r).mime = r.mime ∧
    (hydrate_post db post_ids lim r).created_at = r.created_at ∧
    (hydrate_post db post_ids lim r).comment_count =
      some (comment_count_of db r.id) ∧
    (hydrate_post db post_ids lim r).comments =
      some (post_comments db lim r.id) ∧
    (hydrate_post db post_ids lim r).user =
      some (users_data_lookup db post_ids r.user_id) :=
  ⟨rfl, rfl, rfl, rfl, rfl, rfl, rfl, rfl⟩

/-- The acceptance test succeeds exactly when the author lookup produced a
user whose `del_flg` is clear. -/
theorem row_visible_iff (p : PostRow) :
    row_visible p = true ↔
      ∃ u : User, p.user = some (some u) ∧ u.del_flg = false := by
  cases hu : p.user with
  | none => simp [row_visible, hu]
  | some ou =>
    cases ou with
    | none => simp [row_visible, hu]
    | some u => simp [row_visible, hu]

/-- The accepted-posts component of the assembly loop is the visible-rows
filter of the hydrated input, truncated to the remaining page budget. -/
theorem make_posts_go_snd (db : Database) (post_ids : List Nat) (lim : Nat)
    (l : List PostRow) : ∀ k : Nat, k < POSTS_PER_PAGE →
    (make_posts_go db post_ids lim l k).2 =
      ((l.map (hydrate_post db post_ids lim)).filter row_visible).take
        (POSTS_PER_PAGE - k) := by
  induction l with
  | nil => intro k _; simp [make_posts_go]
  | cons post rest ih =>
    intro k hk
    simp only [make_posts_go, List.map_cons, List.filter_cons]
    by_cases hv : row_visible (hydrate_post db post_ids lim post) = true
    · simp only [hv, if_true]
      by_cases hbk : POSTS_PER_PAGE ≤ k + 1
      · simp only [hbk, if_true]
        have h1 : POSTS_PER_PAGE - k = 1 := by
          have h20 : POSTS_PER_PAGE = 20 := rfl
          omega
        rw [h1]
        simp
      · simp only [hbk, if_false]
        have h1 : POSTS_PER_PAGE - k = (POSTS_PER_PAGE - (k + 1)) + 1 := by
          omega
        rw [h1, List.take_succ_cons, ih (k + 1) (by omega)]
    · simp only [hv, if_false, Bool.false_eq_true]
      exact ih k hk

/-- The mutated-rows component of the assembly loop splits the input into a
hydrated prefix and an untouched suffix; the suffix is nonempty only when
the loop broke, i.e. when the prefix already yielded a full page. -/
theorem make_posts_go_fst (db : Database) (post_ids : List Nat) (lim : Nat)
    (l : List PostRow) : ∀ k : Nat, k < POSTS_PER_PAGE →
    ∃ a b : List PostRow, l = a ++ b ∧
      (make_posts_go db post_ids lim l k).1 =
        a.map (hydrate_post db post_ids lim) ++ b ∧
      (b ≠ [] →
        ((a.map (hydrate_post db post_ids lim)).filter row_visible).length
          + k = POSTS_PER_PAGE) := by
  induction l with
  | nil =>
    intro k _
    exact ⟨[], [], rfl, by simp [make_posts_go], fun h => absurd rfl h⟩
  | cons post rest ih =>
    intro k hk
    simp only [make_posts_go]
    by_cases hv : row_visible (hydrate_post db post_ids lim post) = true
    · by_cases hbk : POSTS_PER_PAGE ≤ k + 1
      · refine ⟨[post], rest, by simp, by simp [hv, hbk], fun _ => ?_⟩
        have h20 : POSTS_PER_PAGE = 20 := rfl
        simp [hv]
        omega
      · obtain ⟨a, b, hab, hfst, hlen⟩ := ih (k + 1) (by omega)
        refine ⟨post :: a, b, by simp [hab], ?_, ?_⟩
        · simp [hv, hbk, hfst]
        · intro hb
          have := hlen hb
          simp only [List.map_cons, List.filter_cons, hv, if_true,
            List.length_cons]
          omega
    · obtain ⟨a, b, hab, hfst, hlen⟩ := ih k hk
      refine ⟨post :: a, b, by simp [hab], ?_, ?_⟩
      · simp [hv, hfst]
      · intro hb
        have := hlen hb
        simp only [List.map_cons, List.filter_cons, hv, if_false,
          Bool.false_eq_true]
        omega

/-- A member of the aggregator's output is a hydrated input row that passed
the visibility test. -/
theorem mem_make_posts_snd (db : Database) (results : List PostRow)
    (ac : Bool) (p : PostRow) (hp : p ∈ (make_posts db results ac).2) :
    (∃ r ∈ results,
        p = hydrate_post db (results.map PostRow.id) (comment_limit ac) r) ∧
    row_visible p = true := by
  by_cases hres : results.isEmpty
  · rw [make_posts, if_pos hres] at hp
    exact absurd hp (List.not_mem_nil p)
  · rw [make_posts, if_neg hres,
      make_posts_go_snd db _ _ results 0 (by decide)] at hp
    have hp1 := (List.take_sublist _ _).mem hp
    have hv := List.of_mem_filter hp1
    have hp2 := (List.filter_sublist _).mem hp1
    obtain ⟨r, hr, hrp⟩ := List.mem_map.mp hp2
    exact ⟨⟨r, hr, hrp.symm⟩, hv⟩

/-- `filterMap` over a list on which the function never fails preserves
length. -/
theorem length_filterMap_of_isSome {α β : Type} (f : α → Option β) :
    ∀ l : List α, (∀ a ∈ l, (f a).isSome) →
      (l.filterMap f).length = l.length
  | [], _ => rfl
  | a :: l, h => by
    obtain ⟨b, hb⟩ :=
      Option.isSome_iff_exists.mp (h a (List.mem_cons_self a l))
    rw [List.filterMap_cons, hb]
    simp [length_filterMap_of_isSome f l
      (fun x hx => h x (List.mem_cons_of_mem a hx))]

/-- The join keeps a comment whose author lookup succeeds. -/
theorem join_author_isSome (db : Database) (c : CommentRow)
    (h : (db.users.find? (fun u => u.id == c.user_id)).isSome) :
    (join_author db c).isSome = true := by
  unfold join_author
  cases hfind : db.users.find? (fun u => u.id == c.user_id) with
  | none => rw [hfind] at h; simp at h
  | some u => rfl

/-! ## Claim theorems -/

/-- C1 (counterexample): the claim that every comment attached to a
returned post has a non-deleted author is false: in
`demo_db_deleted_commenter` the aggregator returns post 10 (its author is
live) with a comment whose author has `del_flg` set — the comments batch
query joins authors without filtering on `del_flg`. -/
theorem make_posts_returns_deleted_comment_author :
    ∃ p ∈ (make_posts demo_db_deleted_commenter [demo_post10] false).2,
      ∃ cv ∈ p.comments.getD [], cv.user.del_flg = true := by decide

/-- C1 (amended): no post authored by a soft-deleted (or unresolvable)
user appears in the aggregator's output: every returned post's author
lookup succeeded and yielded a user with `del_flg` clear.  (Comments
attached to returned posts are *not* so filtered — see the
counterexample.) -/
theorem make_posts_drops_deleted_authors (db : Database)
    (results : List PostRow) (ac : Bool) (p : PostRow)
    (hp : p ∈ (make_posts db results ac).2) :
    ∃ u : User, p.user = some (some u) ∧ u.del_flg = false :=
  (row_visible_iff p).mp (mem_make_posts_snd db results ac p hp).2

/-- C1 (witness): the amended theorem applied to a concrete store: the one
returned post of `demo_db_single` has a live author. -/
theorem make_posts_drops_deleted_authors_witness :
    ∃ u : User,
      ((make_posts demo_db_single [demo_post10] false).2.headI).user =
          some (some u) ∧
        u.del_flg = false :=
  make_posts_drops_deleted_authors demo_db_single [demo_post10] false _
    (by decide)

/-- C3: the aggregator's output is exactly the visible-rows filter of the
hydrated input truncated to `POSTS_PER_PAGE`: hence it has
`min 20 (number of surviving rows)` entries, and it preserves the input's
relative order (the output ids form a sublist of the input ids). -/
theorem make_posts_order_and_cap (db : Database) (results : List PostRow)
    (ac : Bool) :
    (make_posts db results ac).2 =
      ((results.map
          (hydrate_post db (results.map PostRow.id)
            (comment_limit ac))).filter row_visible).take POSTS_PER_PAGE ∧
    (make_posts db results ac).2.length =
      min POSTS_PER_PAGE
        ((results.map
            (hydrate_post db (results.map PostRow.id)
              (comment_limit ac))).filter row_visible).length ∧
    ((make_posts db results ac).2.map PostRow.id).Sublist
      (results.map PostRow.id) := by
  have heq : (make_posts db results ac).2 =
      ((results.map
          (hydrate_post db (results.map PostRow.id)
            (comment_limit ac))).filter row_visible).take POSTS_PER_PAGE := by
    by_cases hres : results.isEmpty
    · have hnil : results = [] := List.isEmpty_iff.mp hres
      subst hnil
      rw [make_posts]
      simp
    · rw [make_posts, if_neg hres,
        make_posts_go_snd db _ _ results 0 (by decide), Nat.sub_zero]
  refine ⟨heq, ?_, ?_⟩
  · rw [heq, List.length_take]
  · rw [heq]
    have h0 : (((results.map
        (hydrate_post db (results.map PostRow.id)
          (comment_limit ac))).filter row_visible).take
            POSTS_PER_PAGE).Sublist
        (results.map
          (hydrate_post db (results.map PostRow.id) (comment_limit ac))) :=
      (List.take_sublist _ _).trans (List.filter_sublist _)
    have h1 := h0.map PostRow.id
    rw [List.map_map] at h1
    have h2 : results.map
        (PostRow.id ∘ hydrate_post db (results.map PostRow.id)
          (comment_limit ac)) = results.map PostRow.id :=
      List.map_congr_left (fun r _ => rfl)
    rwa [h2] at h1

/-- C6: every post in the aggregator's output carries a `comment_count`
equal to the total number of comments on that post in the store (0 when
there are none) — the count comes from the dedicated GROUP BY query, not
from the truncated comments list. -/
theorem make_posts_comment_count_total (db : Database)
    (results : List PostRow) (ac : Bool) (p : PostRow)
    (hp : p ∈ (make_posts db results ac).2) :
    p.comment_count = some ((comments_of db p.id).length) := by
  obtain ⟨⟨r, _, hpr⟩, _⟩ := mem_make_posts_snd db results ac p hp
  subst hpr
  obtain ⟨h1, _, _, _, _, h6, _, _⟩ :=
    hydrate_post_fields db (results.map PostRow.id) (comment_limit ac) r
  rw [h6, h1]
  rfl

/-- C6 (witness): a post with five comments reports `comment_count = 5`
even though only three comments are attached. -/
theorem make_posts_comment_count_total_witness :
    ((make_posts demo_db_five_comments [demo_post10] false).2.headI).comment_count
        = some 5 ∧
      (((make_posts demo_db_five_comments [demo_post10] false).2.headI).comments.getD
          []).length = 3 :=
  ⟨(make_posts_comment_count_total demo_db_five_comments [demo_post10]
      false _ (by decide)).trans (by decide),
   by decide⟩

/-- C7: every output post's attached comment list is exactly the re-sorted,
author-joined, rank-truncated recent-comments selection: it is the
`created_at`-descending ranking of the post's comments truncated to the
limit (3, or 999999 in all-comments mode), joined with authors, attached in
ascending `created_at` order; in particular it is ascending-sorted, has at
most 3 entries when `all_comments` is false, and — given author
referential integrity and at most 999999 comments — contains all of the
post's comments when `all_comments` is true. -/
theorem make_posts_comments_shape (db : Database) (results : List PostRow)
    (ac : Bool) (p : PostRow) (hp : p ∈ (make_posts db results ac).2) :
    p.comments = some (post_comments db (comment_limit ac) p.id) ∧
    (p.comments.getD []).Pairwise view_asc ∧
    (ac = false → (p.comments.getD []).length ≤ 3) ∧
    (ac = true → comments_fk db → (comments_of db p.id).length ≤ 999999 →
      (p.comments.getD []).length = (comments_of db p.id).length) := by
  obtain ⟨⟨r, _, hpr⟩, _⟩ := mem_make_posts_snd db results ac p hp
  subst hpr
  obtain ⟨h1, _, _, _, _, _, h7, _⟩ :=
    hydrate_post_fields db (results.map PostRow.id) (comment_limit ac) r
  refine ⟨by rw [h7, h1], ?_, ?_, ?_⟩
  · rw [h7]
    simp only [Option.getD_some]
    exact List.sorted_insertionSort view_asc _
  · intro hac
    subst hac
    rw [h7]
    simp only [Option.getD_some]
    rw [post_comments,
      (List.perm_insertionSort view_asc _).length_eq]
    calc (((ranked_desc db r.id).take (comment_limit false)).filterMap
            (join_author db)).length
        ≤ ((ranked_desc db r.id).take (comment_limit false)).length :=
          List.length_filterMap_le _ _
      _ ≤ comment_limit false := by
          rw [List.length_take]; exact Nat.min_le_left _ _
      _ = 3 := rfl
  · intro hac hfk hlen
    subst hac
    rw [h7]
    simp only [Option.getD_some]
    rw [post_comments,
      (List.perm_insertionSort view_asc _).length_eq]
    have hrlen : (ranked_desc db r.id).length =
        (comments_of db r.id).length :=
      (List.perm_insertionSort comment_desc _).length_eq
    have htake : (ranked_desc db r.id).take (comment_limit true) =
        ranked_desc db r.id :=
      List.take_of_length_le (by rw [hrlen]; exact hlen)
    rw [htake, length_filterMap_of_isSome _ _ ?_, hrlen, h1]
    intro c hc
    have hc2 : c ∈ comments_of db r.id :=
      ((List.perm_insertionSort comment_desc _).mem_iff).mp hc
    have hc3 : c ∈ db.comments := (List.filter_sublist _).mem hc2
    exact join_author_isSome db c (hfk c hc3)

/-- C7 (witness): in the three-comment mode the five-comment post gets an
attached list of length at most 3. -/
theorem make_posts_comments_shape_witness :
    (((make_posts demo_db_five_comments [demo_post10] false).2.headI).comments.getD
        []).length ≤ 3 :=
  (make_posts_comments_shape demo_db_five_comments [demo_post10] false _
    (by decide)).2.2.1 rfl

/-- C10 (counterexample): the claim that every input row is mutated in
place is false: with 21 surviving rows the loop breaks after accepting the
20th, so the 21st input row never receives the `comment_count`, `comments`
or `user` keys. -/
theorem make_posts_leaves_tail_unmutated :
    ∃ r ∈ (make_posts demo_db_21posts demo_rows21 false).1,
      r.comment_count = none ∧ r.comments = none ∧ r.user = none := by
  decide

/-- C10 (amended): the aggregator mutates its input rows in place only up
to the break point: the input splits into a prefix, each of whose rows has
the `comment_count`, `comments` and `user` keys set with all pre-existing
fields unchanged, and a suffix returned untouched, the suffix being
nonempty only when the prefix already yielded a full page of 20 accepted
posts. -/
theorem make_posts_mutation_split (db : Database) (results : List PostRow)
    (ac : Bool) :
    ∃ a b : List PostRow, results = a ++ b ∧
      (make_posts db results ac).1 =
        a.map (hydrate_post db (results.map PostRow.id)
          (comment_limit ac)) ++ b ∧
      (b ≠ [] →
        ((a.map (hydrate_post db (results.map PostRow.id)
            (comment_limit ac))).filter row_visible).length =
          POSTS_PER_PAGE) ∧
      ∀ r : PostRow,
        (hydrate_post db (results.map PostRow.id)
            (comment_limit ac) r).id = r.id ∧
        (hydrate_post db (results.map PostRow.id)
            (comment_limit ac) r).user_id = r.user_id ∧
        (hydrate_post db (results.map PostRow.id)
            (comment_limit ac) r).body = r.body ∧
        (hydrate_post db (results.map PostRow.id)
            (comment_limit ac) r).mime = r.mime ∧
        (hydrate_post db (results.map PostRow.id)
            (comment_limit ac) r).created_at = r.created_at ∧
        (hydrate_post db (results.map PostRow.id)
            (comment_limit ac) r).comment_count.isSome = true ∧
        (hydrate_post db (results.map PostRow.id)
            (comment_limit ac) r).comments.isSome = true ∧
        (hydrate_post db (results.map PostRow.id)
            (comment_limit ac) r).user.isSome = true := by
  have hfields : ∀ r : PostRow,
      (hydrate_post db (results.map PostRow.id)
          (comment_limit ac) r).id = r.id ∧
      (hydrate_post db (results.map PostRow.id)
          (comment_limit ac) r).user_id = r.user_id ∧
      (hydrate_post db (results.map PostRow.id)
          (comment_limit ac) r).body = r.body ∧
      (hydrate_post db (results.map PostRow.id)
          (comment_limit ac) r).mime = r.mime ∧
      (hydrate_post db (results.map PostRow.id)
          (comment_limit ac) r).created_at = r.created_at ∧
      (hydrate_post db (results.map PostRow.id)
          (comment_limit ac) r).comment_count.isSome = true ∧
      (hydrate_post db (results.map PostRow.id)
          (comment_limit ac) r).comments.isSome = true ∧
      (hydrate_post db (results.map PostRow.id)
          (comment_limit ac) r).user.isSome = true := by
    intro r
    obtain ⟨h1, h2, h3, h4, h5, h6, h7, h8⟩ :=
      hydrate_post_fields db (results.map PostRow.id) (comment_limit ac) r
    exact ⟨h1, h2, h3, h4, h5, by rw [h6]; rfl, by rw [h7]; rfl,
      by rw [h8]; rfl⟩
  by_cases hres : results.isEmpty
  · have hnil : results = [] := List.isEmpty_iff.mp hres
    refine ⟨[], [], hnil, ?_, fun h => absurd rfl h, hfields⟩
    rw [make_posts, if_pos hres]
    simpa using hnil
  · rw [make_posts, if_neg hres]
    obtain ⟨a, b, hab, hfst, hlen⟩ :=
      make_posts_go_fst db (results.map PostRow.id) (comment_limit ac)
        results 0 (by decide)
    exact ⟨a, b, hab, hfst, fun hb => by simpa using hlen hb, hfields⟩

/-- C10 (witness): the split theorem instantiated on the 21-post store. -/
theorem make_posts_mutation_split_witness :
    ∃ a b : List PostRow, demo_rows21 = a ++ b ∧
      (make_posts demo_db_21posts demo_rows21 false).1 =
        a.map (hydrate_post demo_db_21posts (demo_rows21.map PostRow.id)
          (comment_limit false)) ++ b := by
  obtain ⟨a, b, h1, h2, _⟩ :=
    make_posts_mutation_split demo_db_21posts demo_rows21 false
  exact ⟨a, b, h1, h2⟩

/-- C3 (witness): on the 21-post store, the page cap bites: the output
length is `min 20 21 = 20`. -/
theorem make_posts_order_and_cap_witness :
    (make_posts demo_db_21posts demo_rows21 false).2.length =
      min POSTS_PER_PAGE
        ((demo_rows21.map
            (hydrate_post demo_db_21posts (demo_rows21.map PostRow.id)
              (comment_limit false))).filter row_visible).length :=
  (make_posts_order_and_cap demo_db_21posts demo_rows21 false).2.1

/-- C2 (counterexample): the claim that no cache failure ever propagates to
the request caller is false: the deletes issued on new-comment submission
call the memcached client directly with no exception handler, so a raising
delete service makes the invalidation block itself raise. -/
theorem post_comment_invalidation_propagates :
    post_comment_invalidation (fun _ => Except.error ()) 10 none =
      Except.error () := rfl

/-- C2 (amended): the wrapped cache operations degrade silently — a failing
`get` is exactly a miss and a failing `set` is swallowed — but the deletes
issued on new-comment submission are raw client calls whose failure
propagates as an error to the request caller. -/
theorem cache_ops_degrade_except_raw_deletes :
    (∀ (α : Type) (svc : String → Except Unit (Option α)) (key : String),
        svc key = Except.error () → cache_get svc key = none) ∧
    (∀ (α : Type) (svc : String → α → Nat → Except Unit Unit)
        (key : String) (v : α) (ttl : Nat),
        cache_set svc key v ttl = Except.ok ()) ∧
    post_comment_invalidation (fun _ => Except.error ()) 1 (some "alice") =
      Except.error () := by
  refine ⟨?_, ?_, rfl⟩
  · intro α svc key h
    unfold cache_get
    rw [h]
  · intro α svc key v ttl
    unfold cache_set
    cases hsvc : svc key v ttl with
    | ok a => rfl
    | error e => rfl

/-- C2 (witness): the amended theorem applied to an always-failing `get`
service: the failure surfaces as a plain miss. -/
theorem cache_ops_degrade_witness :
    @cache_get Nat (fun _ => Except.error ()) "tl:top" = none :=
  cache_ops_degrade_except_raw_deletes.1 Nat (fun _ => Except.error ())
    "tl:top" rfl

/-- Filename-reference branch of `get_image`: a short-string `imgdata` with
its blob present is served from the blob store with no state change,
whatever the effect flags. -/
theorem get_image_filename_branch (s : ImageState) (id : Nat) (ext : String)
    (post : PostImageRow) (fname : String) (content : List Nat)
    (hid : id ≠ 0)
    (hfind : s.posts.find? (fun p => p.id == id) = some post)
    (himg : post.imgdata = ImgData.str fname)
    (hlen : fname.length < 100)
    (hext : ext_matches ext post.mime = true)
    (hfile : find_file s fname = some content) :
    ∀ w u : Bool, get_image s id ext w u =
      (ImageOutcome.file fname content post.mime, s) := by
  intro w u
  unfold get_image
  rw [if_neg (show ¬(id == 0) = true by simpa using hid)]
  simp [hfind, hext, himg, hlen, hfile]

/-- C4: for an already-migrated post (short-string `imgdata` whose blob is
on disk), resolving twice takes the filename-reference branch both times,
returns byte-identical output, and leaves the entire state — blob store
and posts table — unchanged. -/
theorem get_image_migrated_idempotent (s : ImageState) (id : Nat)
    (ext : String) (post : PostImageRow) (fname : String)
    (content : List Nat) (w1 u1 w2 u2 : Bool)
    (hid : id ≠ 0)
    (hfind : s.posts.find? (fun p => p.id == id) = some post)
    (himg : post.imgdata = ImgData.str fname)
    (hlen : fname.length < 100)
    (hext : ext_matches ext post.mime = true)
    (hfile : find_file s fname = some content) :
    get_image s id ext w1 u1 =
      (ImageOutcome.file fname content post.mime, s) ∧
    get_image (get_image s id ext w1 u1).2 id ext w2 u2 =
      (ImageOutcome.file fname content post.mime, s) := by
  have h := get_image_filename_branch s id ext post fname content hid hfind
    himg hlen hext hfile
  refine ⟨h w1 u1, ?_⟩
  rw [h w1 u1]
  exact h w2 u2

/-- C4 (witness): the idempotence theorem at a concrete migrated post. -/
theorem get_image_migrated_idempotent_witness :
    get_image demo_img_migrated 7 "gif" true true =
      (ImageOutcome.file "7.gif" [1, 2] "image/gif", demo_img_migrated) ∧
    get_image (get_image demo_img_migrated 7 "gif" true true).2 7 "gif"
        true true =
      (ImageOutcome.file "7.gif" [1, 2] "image/gif", demo_img_migrated) :=
  get_image_migrated_idempotent demo_img_migrated 7 "gif"
    { id := 7, mime := "image/gif", imgdata := ImgData.str "7.gif" }
    "7.gif" [1, 2] true true true true (by decide) (by decide) rfl
    (by decide) (by decide) (by decide)

/-- The migration branch under any failure (blob write fails, the latin-1
encoding raises, or the row update fails) returns the inline value and
leaves the posts table untouched. -/
theorem migrate_serve_failure (s : ImageState) (id : Nat) (mime : String)
    (d : ImgData) (writeOk updateOk : Bool)
    (hfail : writeOk = false ∨ updateOk = false ∨
      inline_payload d = none) :
    (migrate_serve s id mime d writeOk updateOk).1 =
      ImageOutcome.inline d mime ∧
    (migrate_serve s id mime d writeOk updateOk).2.posts = s.posts := by
  unfold migrate_serve
  rcases hfail with h | h | h
  · subst h
    simp
  · subst h
    cases hp : (if writeOk then inline_payload d else none) with
    | none => simp [hp]
    | some content => simp [hp, write_file]
  · cases hw : writeOk with
    | false => simp
    | true => simp [h]

/-- Reduction of `get_image` to the migration branch when the row is in the
legacy inline representation. -/
theorem get_image_inline_branch (s : ImageState) (id : Nat) (ext : String)
    (post : PostImageRow)
    (hid : id ≠ 0)
    (hfind : s.posts.find? (fun p => p.id == id) = some post)
    (himg : is_filename_ref post.imgdata = false)
    (hext : ext_matches ext post.mime = true) :
    ∀ w u : Bool, get_image s id ext w u =
      migrate_serve s id post.mime post.imgdata w u := by
  intro w u
  unfold get_image
  rw [if_neg (show ¬(id == 0) = true by simpa using hid)]
  cases himgd : post.imgdata with
  | bytes d => simp [hfind, hext, himgd]
  | str f =>
    have hf : ¬ f.length < 100 := by
      rw [himgd] at himg
      simpa [is_filename_ref] using himg
    simp [hfind, hext, himgd, hf]

/-- C5 (counterexample): the claim that on a failed migration "nothing is
persisted" is false in full strength: when the blob write succeeds and only
the row update fails, the written blob file remains in the blob store
(though the row itself is unchanged and the inline bytes are served). -/
theorem get_image_migration_persists_blob :
    (get_image demo_img_inline 1 "png" true false).1 =
      ImageOutcome.inline (ImgData.bytes [7, 8, 9]) "image/png" ∧
    (get_image demo_img_inline 1 "png" true false).2.files =
      [("1.png", [7, 8, 9])] ∧
    demo_img_inline.files = [] := by decide

/-- C5 (amended): when resolving a legacy inline post, if the blob write or
the row update fails, the resolver serves the original inline value from
the already-fetched row and the `imgdata` column keeps its inline bytes (a
future attempt can retry); a successful blob write before a failed update
may however leave the blob file on disk. -/
theorem get_image_migration_failure_fallback (s : ImageState) (id : Nat)
    (ext : String) (post : PostImageRow) (writeOk updateOk : Bool)
    (hid : id ≠ 0)
    (hfind : s.posts.find? (fun p => p.id == id) = some post)
    (himg : is_filename_ref post.imgdata = false)
    (hext : ext_matches ext post.mime = true)
    (hfail : writeOk = false ∨ updateOk = false ∨
      inline_payload post.imgdata = none) :
    (get_image s id ext writeOk updateOk).1 =
      ImageOutcome.inline post.imgdata post.mime ∧
    (get_image s id ext writeOk updateOk).2.posts = s.posts := by
  rw [get_image_inline_branch s id ext post hid hfind himg hext
    writeOk updateOk]
  exact migrate_serve_failure s id post.mime post.imgdata writeOk updateOk
    hfail

/-- C5 (witness): a failed blob write on a concrete inline post: the inline
bytes are served and the row is unchanged. -/
theorem get_image_migration_failure_fallback_witness :
    (get_image demo_img_inline 1 "png" false true).1 =
      ImageOutcome.inline (ImgData.bytes [7, 8, 9]) "image/png" ∧
    (get_image demo_img_inline 1 "png" false true).2.posts =
      demo_img_inline.posts :=
  get_image_migration_failure_fallback demo_img_inline 1 "png"
    { id := 1, mime := "image/png", imgdata := ImgData.bytes [7, 8, 9] }
    false true (by decide) (by decide) rfl (by decide) (Or.inl rfl)

/-- C8: for a positive id, the three failure cases — missing post, wrong
extension for the stored mime, and missing blob file — all return the same
uniform not-found outcome with the state untouched. -/
theorem get_image_uniform_not_found (s : ImageState) (id : Nat)
    (ext : String) (writeOk updateOk : Bool) (hid : id ≠ 0) :
    (s.posts.find? (fun p => p.id == id) = none →
      get_image s id ext writeOk updateOk = (ImageOutcome.notFound, s)) ∧
    (∀ post : PostImageRow,
      s.posts.find? (fun p => p.id == id) = some post →
      ext_matches ext post.mime = false →
      get_image s id ext writeOk updateOk = (ImageOutcome.notFound, s)) ∧
    (∀ (post : PostImageRow) (fname : String),
      s.posts.find? (fun p => p.id == id) = some post →
      ext_matches ext post.mime = true →
      post.imgdata = ImgData.str fname → fname.length < 100 →
      find_file s fname = none →
      get_image s id ext writeOk updateOk = (ImageOutcome.notFound, s)) := by
  refine ⟨?_, ?_, ?_⟩
  · intro hfind
    unfold get_image
    rw [if_neg (show ¬(id == 0) = true by simpa using hid)]
    simp [hfind]
  · intro post hfind hext
    unfold get_image
    rw [if_neg (show ¬(id == 0) = true by simpa using hid)]
    simp [hfind, hext]
  · intro post fname hfind hext himg hlen hfile
    unfold get_image
    rw [if_neg (show ¬(id == 0) = true by simpa using hid)]
    simp [hfind, hext, himg, hlen, hfile]

/-- C8 (witness): the three not-found cases at concrete stores: a missing
post, a migrated gif requested as jpg, and a filename reference whose blob
is absent. -/
theorem get_image_uniform_not_found_witness :
    get_image demo_img_empty 5 "jpg" true true =
      (ImageOutcome.notFound, demo_img_empty) ∧
    get_image demo_img_migrated 7 "jpg" true true =
      (ImageOutcome.notFound, demo_img_migrated) ∧
    get_image demo_img_dangling 3 "jpg" true true =
      (ImageOutcome.notFound, demo_img_dangling) :=
  ⟨(get_image_uniform_not_found demo_img_empty 5 "jpg" true true
      (by decide)).1 (by decide),
   (get_image_uniform_not_found demo_img_migrated 7 "jpg" true true
      (by decide)).2.1
     { id := 7, mime := "image/gif", imgdata := ImgData.str "7.gif" }
     (by decide) (by decide),
   (get_image_uniform_not_found demo_img_dangling 3 "jpg" true true
      (by decide)).2.2
     { id := 3, mime := "image/jpeg", imgdata := ImgData.str "3.jpg" }
     "3.jpg" (by decide) (by decide) rfl (by decide) (by decide)⟩

/-- C9: an image request whose id segment is empty or parses to 0 returns
an empty successful response with the state untouched — for every store
alike, so no store query influences the result — and this outcome is
distinct from the uniform not-found one. -/
theorem get_image_route_zero_id_empty (s : ImageState) (idStr ext : String)
    (writeOk updateOk : Bool)
    (h : idStr = "" ∨ parse_int idStr = some 0) :
    get_image_route s idStr ext writeOk updateOk =
      (ImageOutcome.empty, s) ∧
    ImageOutcome.empty ≠ ImageOutcome.notFound := by
  refine ⟨?_, by decide⟩
  rcases h with h | h
  · subst h
    rfl
  · unfold get_image_route
    by_cases hs : (idStr == "") = true
    · rw [if_pos hs]
    · rw [if_neg hs]
      simp [h, get_image]

/-- C9 (witness): the literal segment `"0"` yields the empty response on a
concrete store. -/
theorem get_image_route_zero_id_empty_witness :
    get_image_route demo_img_empty "0" "png" true true =
      (ImageOutcome.empty, demo_img_empty) :=
  (get_image_route_zero_id_empty demo_img_empty "0" "png" true true
    (Or.inr (by decide))).1

end Isuconp
